import Mathlib

/-!
Verification development for the 3by3 image-grid application.

The source is a single browser-side controller class (`GridApp`).  Its pure
logic is embedded shallowly below:

* JavaScript numbers (IEEE doubles) are modelled as exact rationals `ℚ`;
  all concrete inputs used in the theorems are small integers whose float
  arithmetic is exact, so the rational model agrees with the source there.
* The DOM, `FileReader`, `Image` decoding and the network are the
  environment: each operation takes the environment's outcome as an
  explicit argument (e.g. whether a given load stage succeeds and with
  which pixel dimensions).
* Event handlers are state transformers `AppState → AppState × List Action`,
  where `Action` records the user-visible effects (alerts, console logs,
  download triggers) that the handler emits.
-/

namespace GridApp

/-- Grid geometry constant from the class body: overall width. -/
def gridWidth : ℚ := 900

/-- Grid geometry constant from the class body: overall height. -/
def gridHeight : ℚ := 1200

/-- Grid geometry constant from the class body: cell width. -/
def cellWidth : ℚ := 300

/-- Grid geometry constant from the class body: cell height. -/
def cellHeight : ℚ := 400

/-- A decoded drawable image.  `tainted` records whether it was loaded
without requesting cross-origin permission (`crossOrigin` not set on the
`Image`), in which case drawing it taints the canvas. -/
structure Bitmap where
  width : ℕ
  height : ℕ
  tainted : Bool
deriving DecidableEq, Repr

/-- The controller's mutable state: the `images` array (9 slots of
`HTMLImageElement | null`), the `taintedIndices` set, and the
`pendingCellIndex` used by the click-to-upload round trip. -/
structure AppState where
  images : Fin 9 → Option Bitmap
  taintedIndices : Finset (Fin 9)
  pendingCellIndex : Option (Fin 9)

/-- The state after the constructor runs: empty grid, no taint, no pending
selection. -/
def initialState : AppState :=
  { images := fun _ => none, taintedIndices := ∅, pendingCellIndex := none }

/-- A user-visible effect emitted by a handler: a blocking `alert`, a
console log, or a synthetic client-side download trigger (filename and
MIME type passed to `canvas.toDataURL`). -/
inductive Action where
  | alert (msg : String)
  | log (msg : String)
  | download (filename : String) (mime : String)
deriving DecidableEq, Repr

/-- The canvas element's displayed bounding box, as returned by
`getBoundingClientRect`. -/
structure CanvasRect where
  width : ℚ
  height : ℚ
  left : ℚ
  top : ℚ

/-- `getGridPosition(clientX, clientY)`: scales the client coordinate from
display (CSS) space into the canvas's pixel-buffer space, then buckets it
into a column, a row and the row-major index.  `canvasWidth`/`canvasHeight`
are the canvas bitmap dimensions (`this.canvas.width/height`); `Math.floor`
is `Int.floor`.  Returns `(col, row, index)`. -/
def getGridPosition (canvasWidth canvasHeight : ℚ) (rect : CanvasRect)
    (clientX clientY : ℚ) : ℤ × ℤ × ℤ :=
  let scaleX := canvasWidth / rect.width
  let scaleY := canvasHeight / rect.height
  let x := (clientX - rect.left) * scaleX
  let y := (clientY - rect.top) * scaleY
  let col := ⌊x / cellWidth⌋
  let row := ⌊y / cellHeight⌋
  (col, row, row * 3 + col)

/-! ### Cover-fit arithmetic (`drawImageProp`)

The source computes, for an `iw × ih` image drawn into a `w × h` cell:
`r = Math.min(w / iw, h / ih)`, proposed size `nw = iw*r`, `nh = ih*r`,
then a correction ratio `ar` (initially 1) by the two `if`s on lines
329–330, and finally the source crop rectangle.  The fractional offsets
are the constants `0.5`, clamped to `[0,1]` (a no-op kept for fidelity). -/

/-- Clamp of the fractional offsets to `[0,1]` (lines 312–315). -/
def clampOffset (o : ℚ) : ℚ :=
  if o < 0 then 0 else if o > 1 then 1 else o

/-- `r = Math.min(w / iw, h / ih)` (line 319). -/
def coverRatio (iw ih w h : ℚ) : ℚ :=
  min (w / iw) (h / ih)

/-- Proposed scaled width `nw = iw * r` (line 320). -/
def propW (iw ih w h : ℚ) : ℚ :=
  iw * coverRatio iw ih w h

/-- Proposed scaled height `nh = ih * r` (line 321). -/
def propH (iw ih w h : ℚ) : ℚ :=
  ih * coverRatio iw ih w h

/-- The correction ratio after the width pass only:
`if (nw < w) ar = w / nw;` (line 329). -/
def widthAr (iw ih w h : ℚ) : ℚ :=
  if propW iw ih w h < w then w / propW iw ih w h else 1

/-- The final correction ratio after the height pass:
`if (Math.abs(ar - 1) < 1e-14 && nh < h) ar = h / nh;` (line 330). -/
def fillAr (iw ih w h : ℚ) : ℚ :=
  if |widthAr iw ih w h - 1| < 1 / 10 ^ 14 ∧ propH iw ih w h < h then
    h / propH iw ih w h
  else widthAr iw ih w h

/-- The outputs of `drawImageProp`'s arithmetic: the final scaled size
`(nw, nh)` and the source crop rectangle `(cx, cy, cw, ch)` passed to
`ctx.drawImage`. -/
structure CoverFit where
  nw : ℚ
  nh : ℚ
  cx : ℚ
  cy : ℚ
  cw : ℚ
  ch : ℚ
deriving DecidableEq, Repr

/-- The whole arithmetic of `drawImageProp` (lines 307–346) for an
`iw × ih` image in a `w × h` cell. -/
def drawImagePropCalc (iw ih w h : ℚ) : CoverFit :=
  let offsetX := clampOffset (1 / 2)
  let offsetY := clampOffset (1 / 2)
  let ar := fillAr iw ih w h
  let nw := propW iw ih w h * ar
  let nh := propH iw ih w h * ar
  let cw0 := iw / (nw / w)
  let ch0 := ih / (nh / h)
  let cx0 := (iw - cw0) * offsetX
  let cy0 := (ih - ch0) * offsetY
  { nw := nw
    nh := nh
    cx := if cx0 < 0 then 0 else cx0
    cy := if cy0 < 0 then 0 else cy0
    cw := if cw0 > iw then iw else cw0
    ch := if ch0 > ih then ih else ch0 }

/-! ### Image acquisition -/

/-- The outcome the environment provides for one `Image` load attempt:
`some (w, h)` when `onload` fires with an image of those dimensions,
`none` when `onerror` fires. -/
abbrev LoadOutcome := Option (ℕ × ℕ)

/-- The environment's outcomes for the three stages of a URL acquisition:
direct with CORS, proxied with CORS, direct without CORS. -/
structure UrlLoadEnv where
  stage1 : LoadOutcome
  stage2 : LoadOutcome
  stage3 : LoadOutcome

/-- `setImage(index, img)` (line 222): store the bitmap in the slot. -/
def setImage (s : AppState) (index : Fin 9) (img : Bitmap) : AppState :=
  { s with images := Function.update s.images index (some img) }

/-- `loadImage(src, index, useCors)` (lines 205–220): on `onload` the slot
is written (the bitmap taints the canvas exactly when CORS was not
requested) and the promise resolves; on `onerror` it rejects with the
state untouched. -/
def loadImage (s : AppState) (index : Fin 9) (useCors : Bool)
    (outcome : LoadOutcome) : Except Unit AppState :=
  match outcome with
  | some (w, h) =>
      .ok { s with images := Function.update s.images index (some ⟨w, h, !useCors⟩) }
  | none => .error ()

/-- `loadImageFromFile(file, index)` (lines 153–170): the file is read into
a data URI and decoded; on success the slot is written (a data-URI image
never taints), the taint mark on the slot is deleted and the canvas is
redrawn; on decode failure the promise rejects with the state untouched. -/
def loadImageFromFile (s : AppState) (index : Fin 9)
    (decoded : LoadOutcome) : Except Unit AppState :=
  match decoded with
  | some (w, h) =>
      let s := setImage s index ⟨w, h, false⟩
      .ok { s with taintedIndices := s.taintedIndices.erase index }
  | none => .error ()

/-- Console-log text of a stage-1 miss (line 179). -/
def stage1FailLog : String := "Direct CORS failed, trying proxy..."

/-- Console-log text of a stage-2 miss (line 190). -/
def stage2FailLog : String := "Proxy failed, falling back to tainted mode..."

/-- Console-error text of a total failure (line 198). -/
def stage3FailLog : String := "All loading attempts failed"

/-- `loadImageFromUrl(url, index)` (lines 172–203): three-stage fallback.
Stage-1 or stage-2 success erases the taint mark and returns early;
stage-3 success adds the taint mark; a stage-3 miss only logs.  Stage
misses are logged, never alerted. -/
def loadImageFromUrl (s : AppState) (index : Fin 9)
    (env : UrlLoadEnv) : AppState × List Action :=
  match loadImage s index true env.stage1 with
  | .ok s' => ({ s' with taintedIndices := s'.taintedIndices.erase index }, [])
  | .error _ =>
    match loadImage s index true env.stage2 with
    | .ok s' =>
        ({ s' with taintedIndices := s'.taintedIndices.erase index },
         [.log stage1FailLog])
    | .error _ =>
      match loadImage s index false env.stage3 with
      | .ok s' =>
          ({ s' with taintedIndices := insert index s'.taintedIndices },
           [.log stage1FailLog, .log stage2FailLog])
      | .error _ =>
          (s, [.log stage1FailLog, .log stage2FailLog, .log stage3FailLog])

/-! ### Drop handling -/

/-- A file delivered by a drop or by the file picker; only its MIME `type`
is inspected by the source, the content is behind the decode outcome. -/
structure DropFile where
  type : String
deriving DecidableEq

/-- `String.prototype.startsWith(p)`, modelled as a character-list prefix
test (the source only applies it to ASCII prefixes, where the two
coincide). -/
def strStartsWith (s p : String) : Bool :=
  p.data.isPrefixOf s.data

/-- The URL-extraction logic of `handleDrop`'s no-file branch (lines
125–145).  `html`, `uri`, `text` are the three `getData` payloads (`""`
when absent, matching JavaScript truthiness).  `imgSrc` is the environment
outcome of `DOMParser` + `querySelector("img")` on the HTML payload: the
`src` of the first image element, if one exists; it is consulted only when
the HTML payload is non-empty. -/
def resolveDropSrc (html uri text : String) (imgSrc : Option String) : String :=
  let src := ""
  let src := if html = "" then src else
    match imgSrc with
    | some a => a
    | none => src
  let src := if src = "" ∧ ¬uri = "" then uri else src
  if src = "" ∧ ¬text = "" ∧ (strStartsWith text "http" = true ∨ strStartsWith text "data:image" = true) then
    text
  else src

/-- `handleDrop` (lines 108–151), after the drop position has been
resolved to `index` by `getGridPosition`.  Out-of-range indices return
early.  If any file is present, only the first file is considered and only
when its MIME type starts with `image/`; otherwise the URL payloads are
consulted.  `decoded` is the decode outcome for a file load and `env` the
stage outcomes for a URL load. -/
def handleDrop (s : AppState) (index : ℤ) (files : List DropFile)
    (html uri text : String) (imgSrc : Option String)
    (decoded : LoadOutcome) (env : UrlLoadEnv) : AppState × List Action :=
  if h : index < 0 ∨ 8 < index then (s, [])
  else
    let i : Fin 9 := ⟨index.toNat, by omega⟩
    match files with
    | file :: _ =>
        if strStartsWith file.type "image/" = true then
          match loadImageFromFile s i decoded with
          | .ok s' => (s', [])
          | .error _ => (s, [])
        else (s, [])
    | [] =>
        let src := resolveDropSrc html uri text imgSrc
        if src = "" then (s, []) else loadImageFromUrl s i env

/-! ### Click-to-upload -/

/-- `handleClick` (lines 70–77), after the click position has been
resolved to `index`: an in-range index is remembered as the pending cell
and the hidden file input is opened. -/
def handleClick (s : AppState) (index : ℤ) : AppState :=
  if h : 0 ≤ index ∧ index ≤ 8 then
    { s with pendingCellIndex := some ⟨index.toNat, by omega⟩ }
  else s

/-- `handleFileSelect` (lines 79–88): a no-op without a pending cell; with
one, the first selected file (if any) is loaded into it.  The pending cell
is cleared after the load — but not when the load rejects, because the
`await` then throws past the clearing line. -/
def handleFileSelect (s : AppState) (files : List DropFile)
    (decoded : LoadOutcome) : AppState × List Action :=
  match s.pendingCellIndex with
  | none => (s, [])
  | some i =>
    match files with
    | [] => ({ s with pendingCellIndex := none }, [])
    | _ :: _ =>
      match loadImageFromFile s i decoded with
      | .ok s' => ({ s' with pendingCellIndex := none }, [])
      | .error _ => (s, [])

/-! ### The canvas origin-clean flag

`AppState` holds the controller's three fields; the canvas element itself
carries one more piece of runtime state, its origin-clean flag, modelled
as a `Bool` (`true` = tainted) threaded beside `AppState`.  The flag is
*sticky*: `canvas.toDataURL` throws for the rest of the canvas's lifetime
once a cross-origin bitmap without CORS approval has been painted (the
source never resets the canvas dimensions, which is the only way to clear
the flag).  Each `*Canvas` function below gives one handler's effect on
the flag, applying `draw()`'s taint rule exactly where the source calls
`draw()`. -/

/-- Whether some currently stored bitmap taints the canvas when painted. -/
def gridHasTaintedBitmap (s : AppState) : Bool :=
  (List.finRange 9).any fun i =>
    match s.images i with
    | some b => b.tainted
    | none => false

/-- Effect of one `draw()` call on the canvas origin-clean flag: painting
repaints every populated slot, so the canvas becomes tainted if any slot
holds a tainting bitmap, and stays tainted forever otherwise (sticky). -/
def drawCanvasTaint (s : AppState) (c : Bool) : Bool :=
  c || gridHasTaintedBitmap s

/-- Canvas-flag effect of `loadImageFromFile`: `draw()` at line 162 runs
on the updated state after a successful decode; a rejected load draws
nothing. -/
def loadImageFromFileCanvas (s : AppState) (index : Fin 9)
    (decoded : LoadOutcome) (c : Bool) : Bool :=
  match loadImageFromFile s index decoded with
  | .ok s' => drawCanvasTaint s' c
  | .error _ => c

/-- Canvas-flag effect of `loadImageFromUrl`: the `draw()` at line 202 is
reached only on the stage-3 path (success or total failure); a stage-1 or
stage-2 success returns early without drawing. -/
def loadImageFromUrlCanvas (s : AppState) (index : Fin 9) (env : UrlLoadEnv)
    (c : Bool) : Bool :=
  match env.stage1 with
  | some _ => c
  | none =>
    match env.stage2 with
    | some _ => c
    | none => drawCanvasTaint (loadImageFromUrl s index env).1 c

/-- Canvas-flag effect of `handleFileSelect`: drawing happens only inside
a successful `loadImageFromFile`. -/
def handleFileSelectCanvas (s : AppState) (files : List DropFile)
    (decoded : LoadOutcome) (c : Bool) : Bool :=
  match s.pendingCellIndex with
  | none => c
  | some i =>
    match files with
    | [] => c
    | _ :: _ => loadImageFromFileCanvas s i decoded c

/-- Canvas-flag effect of `handleDrop`, mirroring its branching. -/
def handleDropCanvas (s : AppState) (index : ℤ) (files : List DropFile)
    (html uri text : String) (imgSrc : Option String)
    (decoded : LoadOutcome) (env : UrlLoadEnv) (c : Bool) : Bool :=
  if h : index < 0 ∨ 8 < index then c
  else
    let i : Fin 9 := ⟨index.toNat, by omega⟩
    match files with
    | file :: _ =>
        if strStartsWith file.type "image/" = true then
          loadImageFromFileCanvas s i decoded c
        else c
    | [] =>
        if resolveDropSrc html uri text imgSrc = "" then c
        else loadImageFromUrlCanvas s i env c

/-! ### Export -/

/-- The blocking notice of the taint gate (lines 352–354). -/
def taintAlertMessage : String :=
  "Cannot download: Images marked with \x27!\x27 are protected by security policies (CORS). \n      \nPlease save these images to your computer first, then drag the file into the square."

/-- The generic notice when serialization itself throws (lines 366–368). -/
def corsAlertMessage : String :=
  "Cannot download: One or more images may be protected by CORS policies."

/-- `downloadImage` (lines 350–371): with a non-empty taint set, alert and
return; otherwise serialize the canvas to a PNG data URL and trigger one
synthetic anchor click downloading `3x3-grid.png`.  `canvasTainted` is
the canvas's current (sticky) origin-clean flag: `canvas.toDataURL`
throws exactly when it is set, in which case the catch block alerts
instead. -/
def downloadImage (s : AppState) (canvasTainted : Bool) :
    AppState × List Action :=
  if 0 < s.taintedIndices.card then
    (s, [.alert taintAlertMessage])
  else if canvasTainted then
    (s, [.alert corsAlertMessage])
  else
    (s, [.download "3x3-grid.png" "image/png"])

/-! ### Reachable states -/

/-- One event-handler invocation, relating the controller state before to
the controller state after. -/
inductive Step : AppState → AppState → Prop
  | click (s : AppState) (index : ℤ) :
      Step s (handleClick s index)
  | fileSelect (s : AppState) (files : List DropFile) (decoded : LoadOutcome) :
      Step s (handleFileSelect s files decoded).1
  | drop (s : AppState) (index : ℤ) (files : List DropFile)
      (html uri text : String) (imgSrc : Option String)
      (decoded : LoadOutcome) (env : UrlLoadEnv) :
      Step s (handleDrop s index files html uri text imgSrc decoded env).1
  | download (s : AppState) (c : Bool) :
      Step s (downloadImage s c).1

/-- The controller states the application can be in: everything reachable
from the constructor's state by event-handler invocations. -/
inductive Reachable : AppState → Prop
  | init : Reachable initialState
  | step {s t : AppState} : Reachable s → Step s t → Reachable t

/-- One event-handler invocation on the full system state — the
controller state paired with the canvas origin-clean flag. -/
inductive SysStep : AppState × Bool → AppState × Bool → Prop
  | click (s : AppState) (c : Bool) (index : ℤ) :
      SysStep (s, c) (handleClick s index, c)
  | fileSelect (s : AppState) (c : Bool) (files : List DropFile)
      (decoded : LoadOutcome) :
      SysStep (s, c)
        ((handleFileSelect s files decoded).1,
         handleFileSelectCanvas s files decoded c)
  | drop (s : AppState) (c : Bool) (index : ℤ) (files : List DropFile)
      (html uri text : String) (imgSrc : Option String)
      (decoded : LoadOutcome) (env : UrlLoadEnv) :
      SysStep (s, c)
        ((handleDrop s index files html uri text imgSrc decoded env).1,
         handleDropCanvas s index files html uri text imgSrc decoded env c)
  | download (s : AppState) (c : Bool) :
      SysStep (s, c) ((downloadImage s c).1, c)

/-- The reachable full system states: the constructor starts with an
empty grid and an origin-clean canvas. -/
inductive SysReachable : AppState × Bool → Prop
  | init : SysReachable (initialState, false)
  | step {t u : AppState × Bool} : SysReachable t → SysStep t u → SysReachable u

/-- The controller state after dropping into cell 0 a URL that loads only
at stage 3: cell 0 holds a tainting bitmap and carries the taint mark. -/
def stage3State : AppState :=
  (handleDrop initialState 0 [] "" "u" "" none none ⟨none, none, some (1, 1)⟩).1

/-- The canvas flag after that drop: the stage-3 path draws the tainting
bitmap, so the canvas loses its origin-clean flag. -/
def stage3Canvas : Bool :=
  handleDropCanvas initialState 0 [] "" "u" "" none none
    ⟨none, none, some (1, 1)⟩ false

/-- The controller state after then dropping a local image file onto the
same cell 0: the slot is overwritten by an untainting bitmap and the
taint mark is erased, so TaintSet is empty again. -/
def overwrittenState : AppState :=
  (handleDrop stage3State 0 [⟨"image/png"⟩] "" "" "" none (some (2, 2))
    ⟨none, none, none⟩).1

/-- The canvas flag after the overwrite: the redraw paints only clean
bitmaps, but the flag is sticky and stays set. -/
def overwrittenCanvas : Bool :=
  handleDropCanvas stage3State 0 [⟨"image/png"⟩] "" "" "" none (some (2, 2))
    ⟨none, none, none⟩ stage3Canvas

/-! ### Helper lemmas -/

/-- The taint bookkeeping invariant: a marked cell holds a bitmap, and a
cell holding a canvas-tainting bitmap is marked. -/
def TaintInv (s : AppState) : Prop :=
  (∀ i ∈ s.taintedIndices, s.images i ≠ none) ∧
  (∀ i : Fin 9, ∀ b : Bitmap, s.images i = some b → b.tainted = true →
    i ∈ s.taintedIndices)

theorem taintInv_initialState : TaintInv initialState := by
  constructor
  · intro i hi
    simp [initialState] at hi
  · intro i b hb
    simp [initialState] at hb

theorem taintInv_loadImageFromFile {s s' : AppState} {i : Fin 9} {d : LoadOutcome}
    (hs : TaintInv s) (h : loadImageFromFile s i d = .ok s') : TaintInv s' := by
  match d with
  | none => simp [loadImageFromFile] at h
  | some (w, hgt) =>
    simp only [loadImageFromFile, setImage, Except.ok.injEq] at h
    subst h
    constructor
    · intro j hj
      simp only [Finset.mem_erase] at hj
      simpa [Function.update, hj.1] using hs.1 j hj.2
    · intro j b hb ht
      by_cases hij : j = i
      · subst hij
        simp [Function.update] at hb
        subst hb
        simp at ht
      · simp [Function.update, hij] at hb
        exact Finset.mem_erase.mpr ⟨hij, hs.2 j b hb ht⟩

theorem taintInv_loadImageFromUrl {s : AppState} {i : Fin 9} {env : UrlLoadEnv}
    (hs : TaintInv s) : TaintInv (loadImageFromUrl s i env).1 := by
  unfold loadImageFromUrl loadImage
  match h1 : env.stage1 with
  | some (w, hgt) =>
    constructor
    · intro j hj
      simp only [Finset.mem_erase] at hj
      simpa [Function.update, hj.1] using hs.1 j hj.2
    · intro j b hb ht
      by_cases hij : j = i
      · subst hij; simp [Function.update] at hb; subst hb; simp at ht
      · simp [Function.update, hij] at hb
        exact Finset.mem_erase.mpr ⟨hij, hs.2 j b hb ht⟩
  | none =>
    match h2 : env.stage2 with
    | some (w, hgt) =>
      constructor
      · intro j hj
        simp only [Finset.mem_erase] at hj
        simpa [Function.update, hj.1] using hs.1 j hj.2
      · intro j b hb ht
        by_cases hij : j = i
        · subst hij; simp [Function.update] at hb; subst hb; simp at ht
        · simp [Function.update, hij] at hb
          exact Finset.mem_erase.mpr ⟨hij, hs.2 j b hb ht⟩
    | none =>
      match h3 : env.stage3 with
      | some (w, hgt) =>
        constructor
        · intro j hj
          by_cases hij : j = i
          · subst hij; simp [Function.update]
          · rcases Finset.mem_insert.mp hj with hji | hji
            · exact absurd hji hij
            · simpa [Function.update, hij] using hs.1 j hji
        · intro j b hb ht
          by_cases hij : j = i
          · subst hij; exact Finset.mem_insert_self _ _
          · simp [Function.update, hij] at hb
            exact Finset.mem_insert_of_mem (hs.2 j b hb ht)
      | none => exact hs

theorem taintInv_handleClick {s : AppState} {index : ℤ} (hs : TaintInv s) :
    TaintInv (handleClick s index) := by
  unfold handleClick
  split
  · exact hs
  · exact hs

theorem taintInv_handleFileSelect {s : AppState} {files : List DropFile}
    {decoded : LoadOutcome} (hs : TaintInv s) :
    TaintInv (handleFileSelect s files decoded).1 := by
  cases hp : s.pendingCellIndex with
  | none => simp only [handleFileSelect, hp]; exact hs
  | some i =>
    cases files with
    | nil => simp only [handleFileSelect, hp]; exact hs
    | cons f rest =>
      cases h : loadImageFromFile s i decoded with
      | ok s' =>
        simp only [handleFileSelect, hp, h]
        have H : TaintInv s' := taintInv_loadImageFromFile hs h
        exact H
      | error e =>
        simp only [handleFileSelect, hp, h]
        exact hs

theorem taintInv_handleDrop {s : AppState} {index : ℤ} {files : List DropFile}
    {html uri text : String} {imgSrc : Option String} {decoded : LoadOutcome}
    {env : UrlLoadEnv} (hs : TaintInv s) :
    TaintInv (handleDrop s index files html uri text imgSrc decoded env).1 := by
  unfold handleDrop
  split
  · exact hs
  · match files with
    | file :: _ =>
      simp only
      split
      · match h : loadImageFromFile s _ decoded with
        | .ok s' => exact taintInv_loadImageFromFile hs h
        | .error _ => exact hs
      · exact hs
    | [] =>
      simp only
      split
      · exact hs
      · exact taintInv_loadImageFromUrl hs

theorem downloadImage_fst (s : AppState) (c : Bool) :
    (downloadImage s c).1 = s := by
  unfold downloadImage
  split
  · rfl
  · split <;> rfl

theorem taintInv_step {s t : AppState} (hs : TaintInv s) (h : Step s t) :
    TaintInv t := by
  cases h with
  | click index => exact taintInv_handleClick hs
  | fileSelect files decoded => exact taintInv_handleFileSelect hs
  | drop index files html uri text imgSrc decoded env => exact taintInv_handleDrop hs
  | download c => rw [downloadImage_fst]; exact hs

theorem reachable_taintInv {s : AppState} (hs : Reachable s) : TaintInv s := by
  induction hs with
  | init => exact taintInv_initialState
  | step _ h ih => exact taintInv_step ih h

/-- Bounds for the floor bucketing: a coordinate in `[0, 3c)` lands in a
bucket in `[0, 2]`. -/
theorem floor_bucket_bounds (x c : ℚ) (hc : 0 < c) (h0 : 0 ≤ x) (h1 : x < 3 * c) :
    0 ≤ ⌊x / c⌋ ∧ ⌊x / c⌋ ≤ 2 := by
  constructor
  · exact Int.floor_nonneg.mpr (div_nonneg h0 hc.le)
  · have h3 : x / c < ((3 : ℤ) : ℚ) := by
      rw [div_lt_iff₀ hc]
      push_cast
      linarith
    have := Int.floor_lt.mpr h3
    omega

/-! ### Claim theorems -/

/-- C1: whenever the taint set is non-empty, `downloadImage` only raises
the blocking taint notice, whatever the canvas flag: it emits no download
action (and hence no file), and the state is returned unchanged without
serializing. -/
theorem export_blocked_when_tainted (s : AppState) (c : Bool)
    (h : 0 < s.taintedIndices.card) :
    downloadImage s c = (s, [Action.alert taintAlertMessage]) ∧
    ∀ name mime, Action.download name mime ∉ (downloadImage s c).2 := by
  have hd : downloadImage s c = (s, [Action.alert taintAlertMessage]) := by
    unfold downloadImage
    simp [h]
  refine ⟨hd, ?_⟩
  intro name mime
  rw [hd]
  simp

/-- Witness for C1 at the state with TaintSet = {3}. -/
theorem export_blocked_when_tainted_witness :
    downloadImage ⟨fun _ => none, {3}, none⟩ true =
      ((⟨fun _ => none, {3}, none⟩ : AppState), [Action.alert taintAlertMessage]) ∧
    ∀ name mime,
      Action.download name mime ∉ (downloadImage ⟨fun _ => none, {3}, none⟩ true).2 :=
  export_blocked_when_tainted ⟨fun _ => none, {3}, none⟩ true (by decide)

/-- C8: in every reachable state, a cell index carrying the taint mark
holds a bitmap. -/
theorem tainted_implies_populated (s : AppState) (hs : Reachable s) (i : Fin 9)
    (hi : i ∈ s.taintedIndices) : s.images i ≠ none :=
  (reachable_taintInv hs).1 i hi

/-- Witness for C8: after a drop whose URL load succeeds only at stage 3,
cell 0 is tainted, and the theorem yields that it is populated. -/
theorem tainted_implies_populated_witness :
    (handleDrop initialState 0 [] "" "u" "" none none
        ⟨none, none, some (1, 1)⟩).1.images 0 ≠ none :=
  tainted_implies_populated _
    (Reachable.step Reachable.init
      (Step.drop initialState 0 [] "" "u" "" none none ⟨none, none, some (1, 1)⟩))
    0 (by simp [handleDrop, resolveDropSrc, loadImageFromUrl, loadImage, initialState])

/-- C9 counterexample: a reachable system state refuting the claim as
stated.  A URL dropped into cell 0 loads only at stage 3 (drawing the
tainting bitmap sticks the canvas's origin-clean flag), then a local file
dropped onto the same cell erases the taint mark — TaintSet is empty and
cell 0 is populated, yet `toDataURL` still throws, so export raises the
generic CORS alert and triggers no download. -/
theorem export_alert_despite_empty_taintset :
    SysReachable (overwrittenState, overwrittenCanvas) ∧
    overwrittenState.taintedIndices = ∅ ∧
    overwrittenState.images 0 ≠ none ∧
    downloadImage overwrittenState overwrittenCanvas =
      (overwrittenState, [Action.alert corsAlertMessage]) ∧
    ∀ name mime, Action.download name mime ∉
      (downloadImage overwrittenState overwrittenCanvas).2 := by
  have hre : SysReachable (overwrittenState, overwrittenCanvas) :=
    SysReachable.step
      (SysReachable.step SysReachable.init
        (SysStep.drop initialState false 0 [] "" "u" "" none none
          ⟨none, none, some (1, 1)⟩))
      (SysStep.drop stage3State stage3Canvas 0 [⟨"image/png"⟩] "" "" "" none
        (some (2, 2)) ⟨none, none, none⟩)
  have ht : overwrittenState.taintedIndices = ∅ := by decide
  have hc : overwrittenCanvas = true := by decide
  have hcard : overwrittenState.taintedIndices.card = 0 := by rw [ht]; rfl
  have hd : downloadImage overwrittenState overwrittenCanvas =
      (overwrittenState, [Action.alert corsAlertMessage]) := by
    unfold downloadImage
    rw [hcard, hc]
    simp
  refine ⟨hre, ht, by decide, hd, ?_⟩
  intro name mime
  rw [hd]
  simp

/-- C9 amended: export with an empty taint set, a populated cell, and a
canvas that is still origin-clean (no stage-3 bitmap was ever drawn)
emits exactly one download action, a PNG named `3x3-grid.png`; once a
stage-3 bitmap has been drawn, the sticky flag makes export alert instead
even after the taint set empties (see the counterexample). -/
theorem export_one_download (s : AppState) (c : Bool)
    (ht : s.taintedIndices = ∅) (hc : c = false)
    (_hp : ∃ i, s.images i ≠ none) :
    downloadImage s c = (s, [Action.download "3x3-grid.png" "image/png"]) := by
  unfold downloadImage
  rw [ht, hc]
  simp

/-- Witness for C9's amended theorem: after one local-file drop into cell
2 of the fresh state, the taint set is empty, the canvas is origin-clean,
cell 2 is populated, and export emits the single download. -/
theorem export_one_download_witness :
    downloadImage (handleDrop initialState 2 [⟨"image/png"⟩] "" "" "" none
        (some (3, 4)) ⟨none, none, none⟩).1 false =
      ((handleDrop initialState 2 [⟨"image/png"⟩] "" "" "" none
        (some (3, 4)) ⟨none, none, none⟩).1,
       [Action.download "3x3-grid.png" "image/png"]) :=
  export_one_download _ false (by decide) rfl ⟨2, by decide⟩

/-- C10: a drop that delivers a file whose MIME type does not start with
`image/` is a complete no-op — the URL payloads are never consulted and
the state (grid, taint set, pending selection) is unchanged. -/
theorem drop_nonimage_file_noop (s : AppState) (index : ℤ) (f : DropFile)
    (rest : List DropFile) (html uri text : String) (imgSrc : Option String)
    (decoded : LoadOutcome) (env : UrlLoadEnv)
    (hf : strStartsWith f.type "image/" = false) :
    handleDrop s index (f :: rest) html uri text imgSrc decoded env = (s, []) := by
  unfold handleDrop
  split
  · rfl
  · simp [hf]

/-- Witness for C10: a `text/plain` file dropped together with URL-bearing
payloads changes nothing. -/
theorem drop_nonimage_file_noop_witness :
    handleDrop initialState 4 [⟨"text/plain"⟩] "frag" "B" "hello" (some "A")
      (some (1, 1)) ⟨some (2, 2), none, none⟩ = (initialState, []) :=
  drop_nonimage_file_noop initialState 4 ⟨"text/plain"⟩ [] "frag" "B" "hello"
    (some "A") (some (1, 1)) ⟨some (2, 2), none, none⟩ (by decide)

/-- C2: a successful acquisition leaves the taint mark on the target cell
reflecting the path taken: a local-file load or a stage-1 or stage-2 URL
load removes the cell from the taint set regardless of prior state, while
a URL load succeeding only at stage 3 (no cross-origin permission
requested) adds it. -/
theorem acquisition_taint_reflects_path (s : AppState) (i : Fin 9)
    (d : ℕ × ℕ) (env : UrlLoadEnv) :
    (∀ s', loadImageFromFile s i (some d) = .ok s' → i ∉ s'.taintedIndices) ∧
    (env.stage1 = some d → i ∉ (loadImageFromUrl s i env).1.taintedIndices) ∧
    (env.stage1 = none → env.stage2 = some d →
      i ∉ (loadImageFromUrl s i env).1.taintedIndices) ∧
    (env.stage1 = none → env.stage2 = none → env.stage3 = some d →
      i ∈ (loadImageFromUrl s i env).1.taintedIndices) := by
  obtain ⟨w, h⟩ := d
  refine ⟨?_, ?_, ?_, ?_⟩
  · intro s' hs'
    simp only [loadImageFromFile, setImage, Except.ok.injEq] at hs'
    subst hs'
    exact Finset.not_mem_erase i _
  · intro h1
    simp only [loadImageFromUrl, loadImage, h1]
    exact Finset.not_mem_erase i _
  · intro h1 h2
    simp only [loadImageFromUrl, loadImage, h1, h2]
    exact Finset.not_mem_erase i _
  · intro h1 h2 h3
    simp only [loadImageFromUrl, loadImage, h1, h2, h3]
    exact Finset.mem_insert_self i _

/-- Witness for C2: concrete loads into cell 0 from the empty state, one
per hypothesis group of the theorem. -/
theorem acquisition_taint_reflects_path_witness :
    ((0 : Fin 9) ∉
      ({ images := Function.update initialState.images 0 (some ⟨1, 1, false⟩),
         taintedIndices := Finset.erase ∅ 0,
         pendingCellIndex := none } : AppState).taintedIndices) ∧
    ((0 : Fin 9) ∉
      (loadImageFromUrl initialState 0 ⟨some (1, 1), none, none⟩).1.taintedIndices) ∧
    ((0 : Fin 9) ∉
      (loadImageFromUrl initialState 0 ⟨none, some (1, 1), none⟩).1.taintedIndices) ∧
    ((0 : Fin 9) ∈
      (loadImageFromUrl initialState 0 ⟨none, none, some (1, 1)⟩).1.taintedIndices) :=
  ⟨(acquisition_taint_reflects_path initialState 0 (1, 1)
      ⟨some (1, 1), none, none⟩).1 _ rfl,
   (acquisition_taint_reflects_path initialState 0 (1, 1)
      ⟨some (1, 1), none, none⟩).2.1 rfl,
   (acquisition_taint_reflects_path initialState 0 (1, 1)
      ⟨none, some (1, 1), none⟩).2.2.1 rfl rfl,
   (acquisition_taint_reflects_path initialState 0 (1, 1)
      ⟨none, none, some (1, 1)⟩).2.2.2 rfl rfl rfl⟩

/-- C3: a completely failed acquisition (local decode failure, or all
three URL stages failing) leaves the whole state — in particular the
target slot and its taint mark — exactly as it was, and raises no alert:
the URL path only logs, the file path only rejects. -/
theorem acquisition_failure_frame (s : AppState) (i : Fin 9) (index : ℤ)
    (f : DropFile) (rest : List DropFile) (html uri text : String)
    (imgSrc : Option String) (env : UrlLoadEnv)
    (h1 : env.stage1 = none) (h2 : env.stage2 = none) (h3 : env.stage3 = none) :
    loadImageFromFile s i none = .error () ∧
    handleDrop s index (f :: rest) html uri text imgSrc none env = (s, []) ∧
    handleFileSelect s (f :: rest) none = (s, []) ∧
    (loadImageFromUrl s i env).1 = s ∧
    (∀ m, Action.alert m ∉ (loadImageFromUrl s i env).2) := by
  have hurl : loadImageFromUrl s i env =
      (s, [.log stage1FailLog, .log stage2FailLog, .log stage3FailLog]) := by
    simp only [loadImageFromUrl, loadImage, h1, h2, h3]
  refine ⟨rfl, ?_, ?_, ?_, ?_⟩
  · unfold handleDrop
    split
    · rfl
    · cases hb : strStartsWith f.type "image/" <;>
        simp [hb, loadImageFromFile]
  · cases hp : s.pendingCellIndex with
    | none => simp [handleFileSelect, hp]
    | some j => simp [handleFileSelect, hp, loadImageFromFile]
  · rw [hurl]
  · intro m
    rw [hurl]
    simp

/-- Witness for C3: total failure of a URL acquisition into cell 5 of the
empty state, dropped alongside a rejected file selection. -/
theorem acquisition_failure_frame_witness :
    loadImageFromFile initialState 5 none = .error () ∧
    handleDrop initialState 5 [⟨"image/png"⟩] "" "" "" none none
      ⟨none, none, none⟩ = (initialState, []) ∧
    handleFileSelect initialState [⟨"image/png"⟩] none = (initialState, []) ∧
    (loadImageFromUrl initialState 5 ⟨none, none, none⟩).1 = initialState ∧
    (∀ m, Action.alert m ∉ (loadImageFromUrl initialState 5 ⟨none, none, none⟩).2) :=
  acquisition_failure_frame initialState 5 5 ⟨"image/png"⟩ [] "" "" "" none
    ⟨none, none, none⟩ rfl rfl rfl

/-- C5: for a coordinate whose display-to-buffer-scaled image lies within
the grid's pixel bounds, `getGridPosition` returns exactly
`(⌊x/cellW⌋, ⌊y/cellH⌋, row*3+col)` with `col, row ∈ [0,2]` and
`index ∈ [0,8]`; and a surface displayed at half its buffer size doubles
the input coordinates before bucketing. -/
theorem locate_in_grid (canvasW canvasH cX cY : ℚ) (rect : CanvasRect)
    (clientX clientY : ℚ)
    (hx0 : 0 ≤ (clientX - rect.left) * (canvasW / rect.width))
    (hx1 : (clientX - rect.left) * (canvasW / rect.width) < gridWidth)
    (hy0 : 0 ≤ (clientY - rect.top) * (canvasH / rect.height))
    (hy1 : (clientY - rect.top) * (canvasH / rect.height) < gridHeight)
    (hcw : canvasW ≠ 0) (hch : canvasH ≠ 0) :
    getGridPosition canvasW canvasH rect clientX clientY =
      (⌊(clientX - rect.left) * (canvasW / rect.width) / cellWidth⌋,
       ⌊(clientY - rect.top) * (canvasH / rect.height) / cellHeight⌋,
       ⌊(clientY - rect.top) * (canvasH / rect.height) / cellHeight⌋ * 3 +
         ⌊(clientX - rect.left) * (canvasW / rect.width) / cellWidth⌋) ∧
    (0 ≤ (getGridPosition canvasW canvasH rect clientX clientY).1 ∧
      (getGridPosition canvasW canvasH rect clientX clientY).1 ≤ 2) ∧
    (0 ≤ (getGridPosition canvasW canvasH rect clientX clientY).2.1 ∧
      (getGridPosition canvasW canvasH rect clientX clientY).2.1 ≤ 2) ∧
    (0 ≤ (getGridPosition canvasW canvasH rect clientX clientY).2.2 ∧
      (getGridPosition canvasW canvasH rect clientX clientY).2.2 ≤ 8) ∧
    getGridPosition canvasW canvasH ⟨canvasW / 2, canvasH / 2, 0, 0⟩ cX cY =
      getGridPosition canvasW canvasH ⟨canvasW, canvasH, 0, 0⟩ (2 * cX) (2 * cY) := by
  have hcol := floor_bucket_bounds ((clientX - rect.left) * (canvasW / rect.width))
    cellWidth (by norm_num [cellWidth]) hx0
    (by rw [show (3 : ℚ) * cellWidth = gridWidth by norm_num [cellWidth, gridWidth]]
        exact hx1)
  have hrow := floor_bucket_bounds ((clientY - rect.top) * (canvasH / rect.height))
    cellHeight (by norm_num [cellHeight]) hy0
    (by rw [show (3 : ℚ) * cellHeight = gridHeight by norm_num [cellHeight, gridHeight]]
        exact hy1)
  refine ⟨rfl, ⟨hcol.1, hcol.2⟩, ⟨hrow.1, hrow.2⟩, ⟨?_, ?_⟩, ?_⟩
  · show 0 ≤ ⌊(clientY - rect.top) * (canvasH / rect.height) / cellHeight⌋ * 3 +
      ⌊(clientX - rect.left) * (canvasW / rect.width) / cellWidth⌋
    omega
  · show ⌊(clientY - rect.top) * (canvasH / rect.height) / cellHeight⌋ * 3 +
      ⌊(clientX - rect.left) * (canvasW / rect.width) / cellWidth⌋ ≤ 8
    omega
  · have ex : (cX - (0 : ℚ)) * (canvasW / (canvasW / 2)) =
        (2 * cX - 0) * (canvasW / canvasW) := by
      field_simp
      ring
    have ey : (cY - (0 : ℚ)) * (canvasH / (canvasH / 2)) =
        (2 * cY - 0) * (canvasH / canvasH) := by
      field_simp
      ring
    show (⌊(cX - (0 : ℚ)) * (canvasW / (canvasW / 2)) / cellWidth⌋,
          ⌊(cY - (0 : ℚ)) * (canvasH / (canvasH / 2)) / cellHeight⌋,
          ⌊(cY - (0 : ℚ)) * (canvasH / (canvasH / 2)) / cellHeight⌋ * 3 +
            ⌊(cX - (0 : ℚ)) * (canvasW / (canvasW / 2)) / cellWidth⌋) =
        (⌊(2 * cX - (0 : ℚ)) * (canvasW / canvasW) / cellWidth⌋,
          ⌊(2 * cY - (0 : ℚ)) * (canvasH / canvasH) / cellHeight⌋,
          ⌊(2 * cY - (0 : ℚ)) * (canvasH / canvasH) / cellHeight⌋ * 3 +
            ⌊(2 * cX - (0 : ℚ)) * (canvasW / canvasW) / cellWidth⌋)
    rw [ex, ey]

/-- Witness for C5 at a click on (450, 600) of the unscaled 900×1200
surface. -/
theorem locate_in_grid_witness :
    getGridPosition 900 1200 ⟨900, 1200, 0, 0⟩ 450 600 =
      (⌊((450 : ℚ) - 0) * (900 / 900) / cellWidth⌋,
       ⌊((600 : ℚ) - 0) * (1200 / 1200) / cellHeight⌋,
       ⌊((600 : ℚ) - 0) * (1200 / 1200) / cellHeight⌋ * 3 +
         ⌊((450 : ℚ) - 0) * (900 / 900) / cellWidth⌋) ∧
    (0 ≤ (getGridPosition 900 1200 ⟨900, 1200, 0, 0⟩ 450 600).1 ∧
      (getGridPosition 900 1200 ⟨900, 1200, 0, 0⟩ 450 600).1 ≤ 2) ∧
    (0 ≤ (getGridPosition 900 1200 ⟨900, 1200, 0, 0⟩ 450 600).2.1 ∧
      (getGridPosition 900 1200 ⟨900, 1200, 0, 0⟩ 450 600).2.1 ≤ 2) ∧
    (0 ≤ (getGridPosition 900 1200 ⟨900, 1200, 0, 0⟩ 450 600).2.2 ∧
      (getGridPosition 900 1200 ⟨900, 1200, 0, 0⟩ 450 600).2.2 ≤ 8) ∧
    getGridPosition 900 1200 ⟨900 / 2, 1200 / 2, 0, 0⟩ 7 13 =
      getGridPosition 900 1200 ⟨900, 1200, 0, 0⟩ (2 * 7) (2 * 13) :=
  locate_in_grid 900 1200 7 13 ⟨900, 1200, 0, 0⟩ 450 600
    (by norm_num) (by norm_num [gridWidth]) (by norm_num)
    (by norm_num [gridHeight]) (by norm_num) (by norm_num)

/-- C4 counterexample: the drop coordinate (−50, 500) on the unscaled
surface is outside the grid's pixel bounds (its scaled x is negative), yet
`getGridPosition` returns `(col, row, index) = (−1, 1, 2)`, and index 2
passes the callers' `0 ≤ index ≤ 8` validation — so out-of-grid inputs
are not all discarded. -/
theorem locate_out_of_grid_accepted :
    getGridPosition 900 1200 ⟨900, 1200, 0, 0⟩ (-50) 500 = (-1, 1, 2) ∧
    ((-50 : ℚ) - 0) * (900 / 900) < 0 ∧
    0 ≤ (getGridPosition 900 1200 ⟨900, 1200, 0, 0⟩ (-50) 500).2.2 ∧
    (getGridPosition 900 1200 ⟨900, 1200, 0, 0⟩ (-50) 500).2.2 ≤ 8 := by
  have h : getGridPosition 900 1200 ⟨900, 1200, 0, 0⟩ (-50) 500 = (-1, 1, 2) := by
    unfold getGridPosition
    norm_num [cellWidth, cellHeight]
  refine ⟨h, by norm_num, ?_, ?_⟩ <;> rw [h] <;> norm_num

/-- C4 amended: the `0 ≤ index ≤ 8` validation discards only out-of-grid
coordinates — an index outside `[0,8]` implies the scaled coordinate was
outside the grid's pixel bounds — but not all of them: some out-of-grid
coordinates still produce an in-range index (see the counterexample). -/
theorem discard_only_out_of_grid (canvasW canvasH : ℚ) (rect : CanvasRect)
    (clientX clientY : ℚ)
    (h : (getGridPosition canvasW canvasH rect clientX clientY).2.2 < 0 ∨
         8 < (getGridPosition canvasW canvasH rect clientX clientY).2.2) :
    ¬ (0 ≤ (clientX - rect.left) * (canvasW / rect.width) ∧
       (clientX - rect.left) * (canvasW / rect.width) < gridWidth ∧
       0 ≤ (clientY - rect.top) * (canvasH / rect.height) ∧
       (clientY - rect.top) * (canvasH / rect.height) < gridHeight) := by
  rintro ⟨hx0, hx1, hy0, hy1⟩
  have hcol := floor_bucket_bounds ((clientX - rect.left) * (canvasW / rect.width))
    cellWidth (by norm_num [cellWidth]) hx0
    (by rw [show (3 : ℚ) * cellWidth = gridWidth by norm_num [cellWidth, gridWidth]]
        exact hx1)
  have hrow := floor_bucket_bounds ((clientY - rect.top) * (canvasH / rect.height))
    cellHeight (by norm_num [cellHeight]) hy0
    (by rw [show (3 : ℚ) * cellHeight = gridHeight by norm_num [cellHeight, gridHeight]]
        exact hy1)
  have hidx : (getGridPosition canvasW canvasH rect clientX clientY).2.2 =
      ⌊(clientY - rect.top) * (canvasH / rect.height) / cellHeight⌋ * 3 +
        ⌊(clientX - rect.left) * (canvasW / rect.width) / cellWidth⌋ := rfl
  rw [hidx] at h
  omega

/-- Witness for C4's amended theorem: the coordinate (−50, −50) yields
index −4, which is discarded, and indeed lies outside the grid bounds. -/
theorem discard_only_out_of_grid_witness :
    ¬ (0 ≤ ((-50 : ℚ) - 0) * (900 / 900) ∧
       ((-50 : ℚ) - 0) * (900 / 900) < gridWidth ∧
       0 ≤ ((-50 : ℚ) - 0) * (1200 / 1200) ∧
       ((-50 : ℚ) - 0) * (1200 / 1200) < gridHeight) :=
  discard_only_out_of_grid 900 1200 ⟨900, 1200, 0, 0⟩ (-50) (-50)
    (Or.inl (by unfold getGridPosition; norm_num [cellWidth, cellHeight]))

/-- C6 counterexample: for a 300×100 bitmap in a 300×400 cell the final
correction ratio is the height ratio `cellH / scaledHeight = 4`, not the
width-pass result 1 — a symmetric height re-scale pass does fire,
contradicting the claim that only a width pass exists. -/
theorem coverfit_height_pass_fires :
    fillAr 300 100 300 400 ≠ widthAr 300 100 300 400 ∧
    fillAr 300 100 300 400 = 400 / propH 300 100 300 400 := by
  constructor <;> norm_num [fillAr, widthAr, propW, propH, coverRatio, min_def]

/-- C6 amended: the cover-fit correction has two passes, not one: the
width ratio `cellW / scaledWidth` applies when the scaled width is below
the cell width, and a symmetric height ratio `cellH / scaledHeight`
applies when the width-pass ratio is within 1e-14 of 1 and the scaled
height is below the cell height; once the width correction has applied
materially, the height pass does not fire. -/
theorem coverfit_correction_passes (iw ih w h : ℚ) :
    (propW iw ih w h < w → widthAr iw ih w h = w / propW iw ih w h) ∧
    (¬ propW iw ih w h < w → widthAr iw ih w h = 1) ∧
    (|widthAr iw ih w h - 1| < 1 / 10 ^ 14 → propH iw ih w h < h →
      fillAr iw ih w h = h / propH iw ih w h) ∧
    (¬ (|widthAr iw ih w h - 1| < 1 / 10 ^ 14 ∧ propH iw ih w h < h) →
      fillAr iw ih w h = widthAr iw ih w h) := by
  refine ⟨?_, ?_, ?_, ?_⟩
  · intro h1
    simp [widthAr, h1]
  · intro h1
    simp [widthAr, h1]
  · intro h1 h2
    unfold fillAr
    rw [if_pos ⟨h1, h2⟩]
  · intro h1
    unfold fillAr
    rw [if_neg h1]

/-- Witness for C6's amended theorem: a materially applied width pass at a
100×400 bitmap (ratio 3, no height pass), and the height pass at a
300×100 bitmap. -/
theorem coverfit_correction_passes_witness :
    widthAr 100 400 300 400 = 300 / propW 100 400 300 400 ∧
    fillAr 100 400 300 400 = widthAr 100 400 300 400 ∧
    fillAr 300 100 300 400 = 400 / propH 300 100 300 400 :=
  ⟨(coverfit_correction_passes 100 400 300 400).1
      (by norm_num [propW, coverRatio, min_def]),
   (coverfit_correction_passes 100 400 300 400).2.2.2
      (by norm_num [widthAr, propW, propH, coverRatio, min_def]),
   (coverfit_correction_passes 300 100 300 400).2.2.1
      (by norm_num [widthAr, propW, coverRatio, min_def])
      (by norm_num [propH, coverRatio, min_def])⟩

/-- C7: drop-payload URL priority: the src of an img element found in a
non-empty HTML payload wins; else the URI-list payload; else the
plain-text payload exactly when it starts with `http` or `data:image`;
when nothing matches the resolved source is empty and the drop leaves the
state unchanged. -/
theorem drop_src_priority (s : AppState) (index : ℤ) (html uri text a : String)
    (imgSrc : Option String) (decoded : LoadOutcome) (env : UrlLoadEnv) :
    (¬ html = "" → imgSrc = some a → ¬ a = "" →
      resolveDropSrc html uri text imgSrc = a) ∧
    ((html = "" ∨ imgSrc = none ∨ imgSrc = some "") → ¬ uri = "" →
      resolveDropSrc html uri text imgSrc = uri) ∧
    ((html = "" ∨ imgSrc = none ∨ imgSrc = some "") → uri = "" →
      (strStartsWith text "http" = true ∨ strStartsWith text "data:image" = true) →
      resolveDropSrc html uri text imgSrc = text) ∧
    ((html = "" ∨ imgSrc = none ∨ imgSrc = some "") → uri = "" →
      ¬ (strStartsWith text "http" = true ∨ strStartsWith text "data:image" = true) →
      resolveDropSrc html uri text imgSrc = "") ∧
    (resolveDropSrc html uri text imgSrc = "" →
      handleDrop s index [] html uri text imgSrc decoded env = (s, [])) := by
  have hsrc1 : (html = "" ∨ imgSrc = none ∨ imgSrc = some "") →
      (if html = "" then "" else
        match imgSrc with
        | some b => b
        | none => "") = "" := by
    rintro (hh | hi | hi)
    · simp [hh]
    · simp [hi]
    · simp [hi]
  have htext : strStartsWith text "http" = true ∨
      strStartsWith text "data:image" = true → ¬ text = "" := by
    rintro (hs | hs) ht <;> subst ht <;> simp [strStartsWith, List.isPrefixOf] at hs
  refine ⟨?_, ?_, ?_, ?_, ?_⟩
  · intro hh hi ha
    subst hi
    simp [resolveDropSrc, hh, ha]
  · intro hor hu
    simp [resolveDropSrc, hsrc1 hor, hu]
  · intro hor hu hs
    simp [resolveDropSrc, hsrc1 hor, hu, hs, htext hs]
  · intro hor hu hs
    rw [not_or] at hs
    simp only [Bool.not_eq_true] at hs
    simp [resolveDropSrc, hsrc1 hor, hu, hs.1, hs.2]
  · intro hres
    unfold handleDrop
    split
    · rfl
    · simp [hres]

/-- Witness for C7: an HTML fragment with `<img src="A">` beats a URI-list
payload `B`; the URI list wins without HTML; a `http://` text wins without
both; plain text resolves to nothing and the drop is a no-op. -/
theorem drop_src_priority_witness :
    resolveDropSrc "frag" "B" "" (some "A") = "A" ∧
    resolveDropSrc "" "B" "" none = "B" ∧
    resolveDropSrc "" "" "http-cat" none = "http-cat" ∧
    resolveDropSrc "" "" "plain" none = "" ∧
    handleDrop initialState 0 [] "" "" "plain" none none ⟨none, none, none⟩ =
      (initialState, []) :=
  ⟨(drop_src_priority initialState 0 "frag" "B" "" "A" (some "A") none
      ⟨none, none, none⟩).1 (by decide) rfl (by decide),
   (drop_src_priority initialState 0 "" "B" "" "A" none none
      ⟨none, none, none⟩).2.1 (Or.inr (Or.inl rfl)) (by decide),
   (drop_src_priority initialState 0 "" "" "http-cat" "A" none none
      ⟨none, none, none⟩).2.2.1 (Or.inr (Or.inl rfl)) rfl (Or.inl (by decide)),
   (drop_src_priority initialState 0 "" "" "plain" "A" none none
      ⟨none, none, none⟩).2.2.2.1 (Or.inr (Or.inl rfl)) rfl (by decide),
   (drop_src_priority initialState 0 "" "" "plain" "A" none none
      ⟨none, none, none⟩).2.2.2.2 (by decide)⟩

end GridApp
